import Mathlib

/-!
Shallow embedding of the mixed-traffic SUMO/TraCI simulation driver
(`src/sim/run.py`, class `MixedTrafficSimulation`).

The external engine (TraCI) is modelled as an oracle: a `StepEnv` records
everything the engine reports during one loop iteration (vehicle id list,
newly departed ids, traffic-light ids, controlled lanes, per-vehicle
attributes, simulation time), and a `RunEnv` gives one `StepEnv` per step
together with the stream of uniform random samples consumed by
`np.random.random()` (one sample per departed vehicle, in list order).

Python floats are modelled as rationals; Python ints as naturals.
Writes to the engine (`traci.vehicle.setType`, `traci.trafficlight.setPhaseDuration`)
are recorded in an ordered write log, and `traci.close()` is recorded in a
close counter, so that effect claims can be stated.
-/

namespace MixedTraffic

/-- A write performed on the external engine through TraCI. -/
inductive EngineCmd where
  | setType (veh_id : String) (type_id : String)
  | setPhaseDuration (tls_id : String) (duration : ℚ)
  deriving DecidableEq

/-- What the engine reports during one iteration of the main loop
(after `traci.simulationStep()`): the id lists and the per-id attribute
getters used by the source. -/
structure StepEnv where
  /-- traci.vehicle.getIDList() -/
  vehicleIDs : List String
  /-- traci.simulation.getDepartedIDList() -/
  departed : List String
  /-- traci.trafficlight.getIDList() -/
  tlsIDs : List String
  /-- traci.trafficlight.getControlledLanes(tls_id) -/
  controlledLanes : String → List String
  /-- traci.lane.getLastStepVehicleIDs(lane_id) -/
  laneVehicles : String → List String
  /-- traci.vehicle.getWaitingTime(veh_id) -/
  getWaitingTime : String → ℚ
  /-- traci.vehicle.getAcceleration(veh_id) -/
  getAcceleration : String → ℚ
  /-- traci.vehicle.getSpeed(veh_id) -/
  getSpeed : String → ℚ
  /-- traci.vehicle.getStopState(veh_id), an integer bitmask; Python
  counts a vehicle as stopped when the mask is truthy (nonzero). -/
  getStopState : String → ℕ
  /-- traci.vehicle.getFuelConsumption(veh_id) -/
  getFuelConsumption : String → ℚ
  /-- traci.vehicle.getAccumulatedWaitingTime(veh_id) -/
  getAccumulatedWaitingTime : String → ℚ
  /-- traci.simulation.getTime() -/
  simTime : ℚ

/-- The whole engine behaviour over a run: one `StepEnv` per loop iteration,
and `rand step k` is the k-th `np.random.random()` sample drawn during
iteration `step` (one per departed vehicle, in departure-list order). -/
structure RunEnv where
  stepEnv : ℕ → StepEnv
  rand : ℕ → ℕ → ℚ

/-- The mutable state of one `MixedTrafficSimulation` object, together with
the log of engine writes and the count of `traci.close()` calls. -/
structure SimState where
  av_penetration_rate : ℚ
  -- the six per-step metric series of self.metrics
  number_of_stops : List ℕ
  fuel_consumption : List ℚ
  mean_speed : List ℚ
  average_travel_time : List ℚ
  traffic_flow_rate : List ℚ
  congestion_levels : List ℕ
  -- scalar entries of self.metrics
  emergency_braking_total : ℕ
  emergency_braking_av : ℕ
  emergency_braking_human : ℕ
  adaptation_frequency : Option ℕ
  -- other attributes
  adaptation_count : ℕ
  emergency_brake_threshold : ℚ
  autonomous_vehicles : Finset String
  -- effect log
  engine_writes : List EngineCmd
  close_count : ℕ

/-- `MixedTrafficSimulation.__init__(config_file, av_penetration_rate)`:
empty metric series, zero counters, threshold -7.5, empty autonomous set.
`adaptation_frequency` is absent from the metrics dict until the end of
`run`, modelled as `none`. -/
def initState (rate : ℚ) : SimState where
  av_penetration_rate := rate
  number_of_stops := []
  fuel_consumption := []
  mean_speed := []
  average_travel_time := []
  traffic_flow_rate := []
  congestion_levels := []
  emergency_braking_total := 0
  emergency_braking_av := 0
  emergency_braking_human := 0
  adaptation_frequency := none
  adaptation_count := 0
  emergency_brake_threshold := -(15/2)
  autonomous_vehicles := ∅
  engine_writes := []
  close_count := 0

/-- `AutonomousVehicle.__init__(vehicle_id)`: performs
`traci.vehicle.setType(vehicle_id, "autonomous_passenger")`.
(`perform_behavior` is `pass` and has no effect.) -/
def autonomousVehicleInit (veh_id : String) (s : SimState) : SimState :=
  { s with engine_writes := s.engine_writes ++ [EngineCmd.setType veh_id "autonomous_passenger"] }

/-- One iteration of the departed-vehicle loop body in `run`:
`if np.random.random() < self.av_penetration_rate:` construct an
`AutonomousVehicle` (engine setType write) and add the id to
`self.autonomous_vehicles`. `r` is the sample drawn for this vehicle. -/
def classify_vehicle (r : ℚ) (veh_id : String) (s : SimState) : SimState :=
  if r < s.av_penetration_rate then
    let s1 := autonomousVehicleInit veh_id s
    { s1 with autonomous_vehicles := insert veh_id s1.autonomous_vehicles }
  else s

/-- The departed-vehicle loop of `run`, consuming one random sample per
departed vehicle in list order; `k` is the index of the next sample. -/
def convert_go (rand : ℕ → ℚ) : ℕ → List String → SimState → SimState
  | _, [], s => s
  | k, veh_id :: rest, s => convert_go rand (k + 1) rest (classify_vehicle (rand k) veh_id s)

/-- `for vehicle_id in traci.simulation.getDepartedIDList(): ...` in `run`. -/
def convert_departed (rand : ℕ → ℚ) (departed : List String) (s : SimState) : SimState :=
  convert_go rand 0 departed s

/-- `MixedTrafficSimulation._get_total_waiting_time(tls_id)`: sum of
`getWaitingTime` over all vehicles on all lanes controlled by `tls_id`. -/
def get_total_waiting_time (env : StepEnv) (tls_id : String) : ℚ :=
  (env.controlledLanes tls_id).foldl
    (fun acc lane_id =>
      (env.laneVehicles lane_id).foldl (fun a veh_id => a + env.getWaitingTime veh_id) acc)
    0

/-- `MixedTrafficSimulation._optimize_traffic_light(tls_id)`: reads the
current phase (unused), sets the phase duration to 10, increments the
adaptation counter. -/
def optimize_traffic_light (tls_id : String) (s : SimState) : SimState :=
  { s with
    engine_writes := s.engine_writes ++ [EngineCmd.setPhaseDuration tls_id 10]
    adaptation_count := s.adaptation_count + 1 }

/-- `MixedTrafficSimulation.adapt_traffic_lights()`: for every traffic
light, optimize it when its total waiting time is strictly above 120. -/
def adapt_traffic_lights (env : StepEnv) (s : SimState) : SimState :=
  env.tlsIDs.foldl
    (fun st tls_id =>
      if get_total_waiting_time env tls_id > 120 then optimize_traffic_light tls_id st else st)
    s

/-- One vehicle of the loop in
`MixedTrafficSimulation.detect_emergency_braking()`: if the acceleration is
at or below the threshold, increment the matching sub-counter and the total. -/
def detect_emergency_braking_vehicle (env : StepEnv) (veh_id : String) (s : SimState) : SimState :=
  if env.getAcceleration veh_id ≤ s.emergency_brake_threshold then
    if veh_id ∈ s.autonomous_vehicles then
      { s with
        emergency_braking_av := s.emergency_braking_av + 1
        emergency_braking_total := s.emergency_braking_total + 1 }
    else
      { s with
        emergency_braking_human := s.emergency_braking_human + 1
        emergency_braking_total := s.emergency_braking_total + 1 }
  else s

/-- `MixedTrafficSimulation.detect_emergency_braking()`. -/
def detect_emergency_braking (env : StepEnv) (s : SimState) : SimState :=
  env.vehicleIDs.foldl (fun st veh_id => detect_emergency_braking_vehicle env veh_id st) s

/-- `MixedTrafficSimulation.collect_metrics()`: appends one entry per call
to the stops, fuel and mean-speed series (zero entries when no vehicle is
present). -/
def collect_metrics (env : StepEnv) (s : SimState) : SimState :=
  if env.vehicleIDs = [] then
    { s with
      number_of_stops := s.number_of_stops ++ [0]
      fuel_consumption := s.fuel_consumption ++ [0]
      mean_speed := s.mean_speed ++ [0] }
  else
    let stops := env.vehicleIDs.countP (fun v => env.getStopState v != 0)
    let fuel := (env.vehicleIDs.map env.getFuelConsumption).sum
    let speeds := env.vehicleIDs.map env.getSpeed
    { s with
      number_of_stops := s.number_of_stops ++ [stops]
      fuel_consumption := s.fuel_consumption ++ [fuel]
      mean_speed := s.mean_speed ++ [speeds.sum / (env.vehicleIDs.length : ℚ)] }

/-- `MixedTrafficSimulation.collect_additional_metrics()`: appends one
entry per call to the travel-time, flow-rate and congestion series (zero
entries when no vehicle is present). -/
def collect_additional_metrics (env : StepEnv) (s : SimState) : SimState :=
  if env.vehicleIDs = [] then
    { s with
      average_travel_time := s.average_travel_time ++ [0]
      traffic_flow_rate := s.traffic_flow_rate ++ [0]
      congestion_levels := s.congestion_levels ++ [0] }
  else
    let travel_times := env.vehicleIDs.map env.getAccumulatedWaitingTime
    let average_travel_time := travel_times.sum / (travel_times.length : ℚ)
    let traffic_flow_rate := (env.vehicleIDs.length : ℚ) / max 1 env.simTime
    let congested := env.vehicleIDs.countP (fun v => decide (env.getSpeed v < 5))
    { s with
      average_travel_time := s.average_travel_time ++ [average_travel_time]
      traffic_flow_rate := s.traffic_flow_rate ++ [traffic_flow_rate]
      congestion_levels := s.congestion_levels ++ [congested] }

/-- One iteration of the `while step < steps` loop body of
`MixedTrafficSimulation.run`, in source order: advance the engine (the
observation `renv.stepEnv step`), convert newly departed vehicles, adapt
traffic lights when `step % 30 == 0`, collect both metric groups, detect
emergency braking. -/
def run_step (renv : RunEnv) (step : ℕ) (s : SimState) : SimState :=
  let env := renv.stepEnv step
  let s1 := convert_departed (renv.rand step) env.departed s
  let s2 := if step % 30 = 0 then adapt_traffic_lights env s1 else s1
  let s3 := collect_metrics env s2
  let s4 := collect_additional_metrics env s3
  detect_emergency_braking env s4

/-- The simulation state after the first `k` iterations of the main loop,
starting from a fresh `MixedTrafficSimulation` with the given penetration
rate. -/
def stateAfter (renv : RunEnv) (rate : ℚ) : ℕ → SimState
  | 0 => initState rate
  | k + 1 => run_step renv k (stateAfter renv rate k)

/-- The epilogue of `run`: `traci.close()` followed by
`self.metrics["adaptation_frequency"] = self.adaptation_count`. -/
def finalizeRun (s : SimState) : SimState :=
  { s with
    close_count := s.close_count + 1
    adaptation_frequency := some s.adaptation_count }

/-- `MixedTrafficSimulation.run(steps)`. The body has no try/finally: an
engine-call failure raised during loop iteration `i` (modelled by
`failAt = some i` with `i < steps`) propagates out of `run`, carrying the
state accumulated by the completed iterations and skipping `traci.close()`
and the epilogue. -/
def run (renv : RunEnv) (rate : ℚ) (steps : ℕ) (failAt : Option ℕ) :
    Except SimState SimState :=
  match failAt with
  | some i =>
      if i < steps then Except.error (stateAfter renv rate i)
      else Except.ok (finalizeRun (stateAfter renv rate steps))
  | none => Except.ok (finalizeRun (stateAfter renv rate steps))

/-- `np.mean(values)` over a metric series. -/
def npMean (values : List ℚ) : ℚ := values.sum / (values.length : ℚ)

/-- `np.max(values)`: the maximum of a nonempty series; raises on an empty
one (modelled as `none`). -/
def npMax : List ℚ → Option ℚ
  | [] => none
  | v :: vs => some (vs.foldl max v)

/-- `np.min(values)`: the minimum of a nonempty series; raises on an empty
one (modelled as `none`). -/
def npMin : List ℚ → Option ℚ
  | [] => none
  | v :: vs => some (vs.foldl min v)

/-- One summary row of `MixedTrafficSimulation.save_metrics_to_csv` for one
metric series: `(average, maximum, minimum, final value)`, where the final
value is `values[-1]` (raises on an empty list, modelled as `none`). -/
def summarize_row (values : List ℚ) : Option (ℚ × ℚ × ℚ × ℚ) :=
  match npMax values, npMin values, values.getLast? with
  | some mx, some mn, some fin => some (npMean values, mx, mn, fin)
  | _, _, _ => none

/-! Derived observations: the per-step value appended to each metric series
by one call of the collectors. In the empty-vehicle branch the source
appends the literal 0, which coincides with each formula below (empty sums
and counts are 0, and `x / 0 = 0` in `ℚ`); the characterization lemmas
prove the coincidence. -/

/-- The stop count appended by `collect_metrics`. -/
def stopsVal (env : StepEnv) : ℕ :=
  env.vehicleIDs.countP (fun v => env.getStopState v != 0)

/-- The fuel total appended by `collect_metrics`. -/
def fuelVal (env : StepEnv) : ℚ :=
  (env.vehicleIDs.map env.getFuelConsumption).sum

/-- The mean speed appended by `collect_metrics`. -/
def meanSpeedVal (env : StepEnv) : ℚ :=
  (env.vehicleIDs.map env.getSpeed).sum / (env.vehicleIDs.length : ℚ)

/-- The average-travel-time proxy appended by `collect_additional_metrics`. -/
def attVal (env : StepEnv) : ℚ :=
  (env.vehicleIDs.map env.getAccumulatedWaitingTime).sum /
    ((env.vehicleIDs.map env.getAccumulatedWaitingTime).length : ℚ)

/-- The traffic flow rate appended by `collect_additional_metrics`. -/
def tfrVal (env : StepEnv) : ℚ :=
  (env.vehicleIDs.length : ℚ) / max 1 env.simTime

/-- The congestion count appended by `collect_additional_metrics`. -/
def congVal (env : StepEnv) : ℕ :=
  env.vehicleIDs.countP (fun v => decide (env.getSpeed v < 5))

/-- The traffic lights that `adapt_traffic_lights` optimizes in one call:
those whose total waiting time strictly exceeds 120. -/
def adaptTargets (env : StepEnv) : List String :=
  env.tlsIDs.filter (fun t => decide (get_total_waiting_time env t > 120))

/-! Concrete environments used to instantiate theorems with hypotheses. -/

/-- An engine observation with no vehicles, no departures and no traffic
lights, at simulation time 0. -/
def emptyEnv : StepEnv where
  vehicleIDs := []
  departed := []
  tlsIDs := []
  controlledLanes := fun _ => []
  laneVehicles := fun _ => []
  getWaitingTime := fun _ => 0
  getAcceleration := fun _ => 0
  getSpeed := fun _ => 0
  getStopState := fun _ => 0
  getFuelConsumption := fun _ => 0
  getAccumulatedWaitingTime := fun _ => 0
  simTime := 0

/-- A run environment that shows the same engine observation every step,
with all random samples equal to 1/2. -/
def constRun (env : StepEnv) : RunEnv where
  stepEnv := fun _ => env
  rand := fun _ _ => 1/2

/-- The run environment of an engine that never has any vehicle. -/
def renvEmpty : RunEnv := constRun emptyEnv

/-- One vehicle `v0` present, decelerating at exactly -7.5. -/
def envBrake : StepEnv :=
  { emptyEnv with vehicleIDs := ["v0"], getAcceleration := fun _ => -(15/2) }

/-- One vehicle `v0` present, decelerating at exactly -7.4. -/
def envNoBrake : StepEnv :=
  { emptyEnv with vehicleIDs := ["v0"], getAcceleration := fun _ => -(37/5) }

/-- One vehicle `v0` present at simulation time 0. -/
def envOneVehicle : StepEnv :=
  { emptyEnv with vehicleIDs := ["v0"] }

/-- One vehicle `v0`, both present and newly departed, every step. -/
def envDeparting : StepEnv :=
  { emptyEnv with vehicleIDs := ["v0"], departed := ["v0"] }

/-- One traffic light `tls0` controlling one lane with one vehicle whose
waiting time is `w`. -/
def envTls (w : ℚ) : StepEnv :=
  { emptyEnv with
    tlsIDs := ["tls0"]
    controlledLanes := fun _ => ["lane0"]
    laneVehicles := fun _ => ["v0"]
    getWaitingTime := fun _ => w }

/-!
Framing lemmas: each operation leaves untouched every state field it does
not explicitly assign.
-/

theorem foldl_proj {α β : Type} (g : SimState → β) (f : SimState → α → SimState)
    (hf : ∀ s a, g (f s a) = g s) :
    ∀ (l : List α) (s : SimState), g (l.foldl f s) = g s := by
  intro l
  induction l with
  | nil => intro s; rfl
  | cons a t ih => intro s; rw [List.foldl_cons, ih, hf]

theorem foldl_inv {α : Type} (P : SimState → Prop) (f : SimState → α → SimState)
    (hf : ∀ s a, P s → P (f s a)) :
    ∀ (l : List α) (s : SimState), P s → P (l.foldl f s) := by
  intro l
  induction l with
  | nil => intro s hs; exact hs
  | cons a t ih => intro s hs; exact ih _ (hf s a hs)

theorem convert_go_proj {β : Type} (g : SimState → β) (rand : ℕ → ℚ)
    (hg : ∀ r v s, g (classify_vehicle r v s) = g s) :
    ∀ (k : ℕ) (dep : List String) (s : SimState), g (convert_go rand k dep s) = g s := by
  intro k dep
  induction dep generalizing k with
  | nil => intro s; rfl
  | cons v rest ih => intro s; simp only [convert_go]; rw [ih, hg]

theorem convert_departed_proj {β : Type} (g : SimState → β) (rand : ℕ → ℚ)
    (hg : ∀ r v s, g (classify_vehicle r v s) = g s) (dep : List String) (s : SimState) :
    g (convert_departed rand dep s) = g s :=
  convert_go_proj g rand hg 0 dep s

theorem adapt_proj {β : Type} (g : SimState → β)
    (hg : ∀ t s, g (optimize_traffic_light t s) = g s) (env : StepEnv) (s : SimState) :
    g (adapt_traffic_lights env s) = g s := by
  refine foldl_proj g _ ?_ env.tlsIDs s
  intro s t
  dsimp only
  split
  · exact hg t s
  · rfl

theorem detect_proj {β : Type} (g : SimState → β)
    (hg : ∀ env v s, g (detect_emergency_braking_vehicle env v s) = g s)
    (env : StepEnv) (s : SimState) :
    g (detect_emergency_braking env s) = g s :=
  foldl_proj g _ (fun s v => hg env v s) env.vehicleIDs s

@[simp] theorem classify_rate (r : ℚ) (v : String) (s : SimState) :
    (classify_vehicle r v s).av_penetration_rate = s.av_penetration_rate := by
  simp only [classify_vehicle, autonomousVehicleInit]; split <;> rfl

@[simp] theorem classify_autonomous (r : ℚ) (v : String) (s : SimState) :
    (classify_vehicle r v s).autonomous_vehicles =
      if r < s.av_penetration_rate then insert v s.autonomous_vehicles
      else s.autonomous_vehicles := by
  simp only [classify_vehicle, autonomousVehicleInit]; split <;> rfl

@[simp] theorem detect_vehicle_autonomous (env : StepEnv) (v : String) (s : SimState) :
    (detect_emergency_braking_vehicle env v s).autonomous_vehicles = s.autonomous_vehicles := by
  simp only [detect_emergency_braking_vehicle]
  split <;> first | rfl | (split <;> rfl)

@[simp] theorem convert_number_of_stops (rand : ℕ → ℚ) (dep : List String) (s : SimState) :
    (convert_departed rand dep s).number_of_stops = s.number_of_stops :=
  convert_departed_proj (fun s => s.number_of_stops) rand
    (by intro r v s; simp only [classify_vehicle, autonomousVehicleInit]; split <;> rfl) dep s

@[simp] theorem convert_fuel_consumption (rand : ℕ → ℚ) (dep : List String) (s : SimState) :
    (convert_departed rand dep s).fuel_consumption = s.fuel_consumption :=
  convert_departed_proj (fun s => s.fuel_consumption) rand
    (by intro r v s; simp only [classify_vehicle, autonomousVehicleInit]; split <;> rfl) dep s

@[simp] theorem convert_mean_speed (rand : ℕ → ℚ) (dep : List String) (s : SimState) :
    (convert_departed rand dep s).mean_speed = s.mean_speed :=
  convert_departed_proj (fun s => s.mean_speed) rand
    (by intro r v s; simp only [classify_vehicle, autonomousVehicleInit]; split <;> rfl) dep s

@[simp] theorem convert_average_travel_time (rand : ℕ → ℚ) (dep : List String) (s : SimState) :
    (convert_departed rand dep s).average_travel_time = s.average_travel_time :=
  convert_departed_proj (fun s => s.average_travel_time) rand
    (by intro r v s; simp only [classify_vehicle, autonomousVehicleInit]; split <;> rfl) dep s

@[simp] theorem convert_traffic_flow_rate (rand : ℕ → ℚ) (dep : List String) (s : SimState) :
    (convert_departed rand dep s).traffic_flow_rate = s.traffic_flow_rate :=
  convert_departed_proj (fun s => s.traffic_flow_rate) rand
    (by intro r v s; simp only [classify_vehicle, autonomousVehicleInit]; split <;> rfl) dep s

@[simp] theorem convert_congestion_levels (rand : ℕ → ℚ) (dep : List String) (s : SimState) :
    (convert_departed rand dep s).congestion_levels = s.congestion_levels :=
  convert_departed_proj (fun s => s.congestion_levels) rand
    (by intro r v s; simp only [classify_vehicle, autonomousVehicleInit]; split <;> rfl) dep s

@[simp] theorem convert_braking_total (rand : ℕ → ℚ) (dep : List String) (s : SimState) :
    (convert_departed rand dep s).emergency_braking_total = s.emergency_braking_total :=
  convert_departed_proj (fun s => s.emergency_braking_total) rand
    (by intro r v s; simp only [classify_vehicle, autonomousVehicleInit]; split <;> rfl) dep s

@[simp] theorem convert_braking_av (rand : ℕ → ℚ) (dep : List String) (s : SimState) :
    (convert_departed rand dep s).emergency_braking_av = s.emergency_braking_av :=
  convert_departed_proj (fun s => s.emergency_braking_av) rand
    (by intro r v s; simp only [classify_vehicle, autonomousVehicleInit]; split <;> rfl) dep s

@[simp] theorem convert_braking_human (rand : ℕ → ℚ) (dep : List String) (s : SimState) :
    (convert_departed rand dep s).emergency_braking_human = s.emergency_braking_human :=
  convert_departed_proj (fun s => s.emergency_braking_human) rand
    (by intro r v s; simp only [classify_vehicle, autonomousVehicleInit]; split <;> rfl) dep s

@[simp] theorem convert_adaptation_count (rand : ℕ → ℚ) (dep : List String) (s : SimState) :
    (convert_departed rand dep s).adaptation_count = s.adaptation_count :=
  convert_departed_proj (fun s => s.adaptation_count) rand
    (by intro r v s; simp only [classify_vehicle, autonomousVehicleInit]; split <;> rfl) dep s

@[simp] theorem convert_rate (rand : ℕ → ℚ) (dep : List String) (s : SimState) :
    (convert_departed rand dep s).av_penetration_rate = s.av_penetration_rate :=
  convert_departed_proj (fun s => s.av_penetration_rate) rand
    (by intro r v s; simp only [classify_vehicle, autonomousVehicleInit]; split <;> rfl) dep s

@[simp] theorem convert_threshold (rand : ℕ → ℚ) (dep : List String) (s : SimState) :
    (convert_departed rand dep s).emergency_brake_threshold = s.emergency_brake_threshold :=
  convert_departed_proj (fun s => s.emergency_brake_threshold) rand
    (by intro r v s; simp only [classify_vehicle, autonomousVehicleInit]; split <;> rfl) dep s

@[simp] theorem convert_close_count (rand : ℕ → ℚ) (dep : List String) (s : SimState) :
    (convert_departed rand dep s).close_count = s.close_count :=
  convert_departed_proj (fun s => s.close_count) rand
    (by intro r v s; simp only [classify_vehicle, autonomousVehicleInit]; split <;> rfl) dep s

@[simp] theorem adapt_number_of_stops (env : StepEnv) (s : SimState) :
    (adapt_traffic_lights env s).number_of_stops = s.number_of_stops :=
  adapt_proj (fun s => s.number_of_stops) (fun _ _ => rfl) env s

@[simp] theorem adapt_fuel_consumption (env : StepEnv) (s : SimState) :
    (adapt_traffic_lights env s).fuel_consumption = s.fuel_consumption :=
  adapt_proj (fun s => s.fuel_consumption) (fun _ _ => rfl) env s

@[simp] theorem adapt_mean_speed (env : StepEnv) (s : SimState) :
    (adapt_traffic_lights env s).mean_speed = s.mean_speed :=
  adapt_proj (fun s => s.mean_speed) (fun _ _ => rfl) env s

@[simp] theorem adapt_average_travel_time (env : StepEnv) (s : SimState) :
    (adapt_traffic_lights env s).average_travel_time = s.average_travel_time :=
  adapt_proj (fun s => s.average_travel_time) (fun _ _ => rfl) env s

@[simp] theorem adapt_traffic_flow_rate (env : StepEnv) (s : SimState) :
    (adapt_traffic_lights env s).traffic_flow_rate = s.traffic_flow_rate :=
  adapt_proj (fun s => s.traffic_flow_rate) (fun _ _ => rfl) env s

@[simp] theorem adapt_congestion_levels (env : StepEnv) (s : SimState) :
    (adapt_traffic_lights env s).congestion_levels = s.congestion_levels :=
  adapt_proj (fun s => s.congestion_levels) (fun _ _ => rfl) env s

@[simp] theorem adapt_braking_total (env : StepEnv) (s : SimState) :
    (adapt_traffic_lights env s).emergency_braking_total = s.emergency_braking_total :=
  adapt_proj (fun s => s.emergency_braking_total) (fun _ _ => rfl) env s

@[simp] theorem adapt_braking_av (env : StepEnv) (s : SimState) :
    (adapt_traffic_lights env s).emergency_braking_av = s.emergency_braking_av :=
  adapt_proj (fun s => s.emergency_braking_av) (fun _ _ => rfl) env s

@[simp] theorem adapt_braking_human (env : StepEnv) (s : SimState) :
    (adapt_traffic_lights env s).emergency_braking_human = s.emergency_braking_human :=
  adapt_proj (fun s => s.emergency_braking_human) (fun _ _ => rfl) env s

@[simp] theorem adapt_autonomous (env : StepEnv) (s : SimState) :
    (adapt_traffic_lights env s).autonomous_vehicles = s.autonomous_vehicles :=
  adapt_proj (fun s => s.autonomous_vehicles) (fun _ _ => rfl) env s

@[simp] theorem adapt_rate (env : StepEnv) (s : SimState) :
    (adapt_traffic_lights env s).av_penetration_rate = s.av_penetration_rate :=
  adapt_proj (fun s => s.av_penetration_rate) (fun _ _ => rfl) env s

@[simp] theorem adapt_threshold (env : StepEnv) (s : SimState) :
    (adapt_traffic_lights env s).emergency_brake_threshold = s.emergency_brake_threshold :=
  adapt_proj (fun s => s.emergency_brake_threshold) (fun _ _ => rfl) env s

@[simp] theorem adapt_close_count (env : StepEnv) (s : SimState) :
    (adapt_traffic_lights env s).close_count = s.close_count :=
  adapt_proj (fun s => s.close_count) (fun _ _ => rfl) env s

@[simp] theorem detect_number_of_stops (env : StepEnv) (s : SimState) :
    (detect_emergency_braking env s).number_of_stops = s.number_of_stops :=
  detect_proj (fun s => s.number_of_stops)
    (by intro env v s; simp only [detect_emergency_braking_vehicle]
        split <;> first | rfl | (split <;> rfl)) env s

@[simp] theorem detect_fuel_consumption (env : StepEnv) (s : SimState) :
    (detect_emergency_braking env s).fuel_consumption = s.fuel_consumption :=
  detect_proj (fun s => s.fuel_consumption)
    (by intro env v s; simp only [detect_emergency_braking_vehicle]
        split <;> first | rfl | (split <;> rfl)) env s

@[simp] theorem detect_mean_speed (env : StepEnv) (s : SimState) :
    (detect_emergency_braking env s).mean_speed = s.mean_speed :=
  detect_proj (fun s => s.mean_speed)
    (by intro env v s; simp only [detect_emergency_braking_vehicle]
        split <;> first | rfl | (split <;> rfl)) env s

@[simp] theorem detect_average_travel_time (env : StepEnv) (s : SimState) :
    (detect_emergency_braking env s).average_travel_time = s.average_travel_time :=
  detect_proj (fun s => s.average_travel_time)
    (by intro env v s; simp only [detect_emergency_braking_vehicle]
        split <;> first | rfl | (split <;> rfl)) env s

@[simp] theorem detect_traffic_flow_rate (env : StepEnv) (s : SimState) :
    (detect_emergency_braking env s).traffic_flow_rate = s.traffic_flow_rate :=
  detect_proj (fun s => s.traffic_flow_rate)
    (by intro env v s; simp only [detect_emergency_braking_vehicle]
        split <;> first | rfl | (split <;> rfl)) env s

@[simp] theorem detect_congestion_levels (env : StepEnv) (s : SimState) :
    (detect_emergency_braking env s).congestion_levels = s.congestion_levels :=
  detect_proj (fun s => s.congestion_levels)
    (by intro env v s; simp only [detect_emergency_braking_vehicle]
        split <;> first | rfl | (split <;> rfl)) env s

@[simp] theorem detect_adaptation_count (env : StepEnv) (s : SimState) :
    (detect_emergency_braking env s).adaptation_count = s.adaptation_count :=
  detect_proj (fun s => s.adaptation_count)
    (by intro env v s; simp only [detect_emergency_braking_vehicle]
        split <;> first | rfl | (split <;> rfl)) env s

@[simp] theorem detect_autonomous (env : StepEnv) (s : SimState) :
    (detect_emergency_braking env s).autonomous_vehicles = s.autonomous_vehicles :=
  detect_proj (fun s => s.autonomous_vehicles) (fun env v s => detect_vehicle_autonomous env v s)
    env s

@[simp] theorem detect_rate (env : StepEnv) (s : SimState) :
    (detect_emergency_braking env s).av_penetration_rate = s.av_penetration_rate :=
  detect_proj (fun s => s.av_penetration_rate)
    (by intro env v s; simp only [detect_emergency_braking_vehicle]
        split <;> first | rfl | (split <;> rfl)) env s

@[simp] theorem detect_close_count (env : StepEnv) (s : SimState) :
    (detect_emergency_braking env s).close_count = s.close_count :=
  detect_proj (fun s => s.close_count)
    (by intro env v s; simp only [detect_emergency_braking_vehicle]
        split <;> first | rfl | (split <;> rfl)) env s

/-!
Characterizations of the collectors: both branches of each collector
append exactly the derived per-step value (the empty branch appends the
literal 0, which coincides with the formulas).
-/

theorem collect_metrics_eq (env : StepEnv) (s : SimState) :
    collect_metrics env s =
      { s with
        number_of_stops := s.number_of_stops ++ [stopsVal env]
        fuel_consumption := s.fuel_consumption ++ [fuelVal env]
        mean_speed := s.mean_speed ++ [meanSpeedVal env] } := by
  unfold collect_metrics
  split
  · rename_i h
    simp [stopsVal, fuelVal, meanSpeedVal, h]
  · rfl

theorem collect_additional_metrics_eq (env : StepEnv) (s : SimState) :
    collect_additional_metrics env s =
      { s with
        average_travel_time := s.average_travel_time ++ [attVal env]
        traffic_flow_rate := s.traffic_flow_rate ++ [tfrVal env]
        congestion_levels := s.congestion_levels ++ [congVal env] } := by
  unfold collect_additional_metrics
  split
  · rename_i h
    simp [attVal, tfrVal, congVal, h]
  · rfl

/-!
Characterization of the signal-adaptation pass: it fires once per traffic
light whose total waiting time strictly exceeds 120, each firing adding one
`setPhaseDuration _ 10` write and one to the adaptation counter.
-/

theorem adapt_go_count (env : StepEnv) :
    ∀ (l : List String) (s : SimState),
      (l.foldl
          (fun st tls_id =>
            if get_total_waiting_time env tls_id > 120 then optimize_traffic_light tls_id st
            else st)
          s).adaptation_count
        = s.adaptation_count
            + (l.filter (fun t => decide (get_total_waiting_time env t > 120))).length := by
  intro l
  induction l with
  | nil => intro s; simp
  | cons t rest ih =>
      intro s
      rw [List.foldl_cons, List.filter_cons]
      by_cases h : get_total_waiting_time env t > 120
      · rw [if_pos h, ih]
        have hc : (optimize_traffic_light t s).adaptation_count = s.adaptation_count + 1 := rfl
        rw [hc, if_pos (decide_eq_true h), List.length_cons]
        omega
      · rw [if_neg h, ih, if_neg (by simp [h])]

theorem adapt_count_eq (env : StepEnv) (s : SimState) :
    (adapt_traffic_lights env s).adaptation_count
      = s.adaptation_count + (adaptTargets env).length :=
  adapt_go_count env env.tlsIDs s

theorem adapt_go_writes (env : StepEnv) :
    ∀ (l : List String) (s : SimState),
      (l.foldl
          (fun st tls_id =>
            if get_total_waiting_time env tls_id > 120 then optimize_traffic_light tls_id st
            else st)
          s).engine_writes
        = s.engine_writes
            ++ (l.filter (fun t => decide (get_total_waiting_time env t > 120))).map
                (fun t => EngineCmd.setPhaseDuration t 10) := by
  intro l
  induction l with
  | nil => intro s; simp
  | cons t rest ih =>
      intro s
      rw [List.foldl_cons, List.filter_cons]
      by_cases h : get_total_waiting_time env t > 120
      · rw [if_pos h, ih]
        have hw : (optimize_traffic_light t s).engine_writes
            = s.engine_writes ++ [EngineCmd.setPhaseDuration t 10] := rfl
        rw [hw, if_pos (decide_eq_true h), List.map_cons, List.append_assoc,
          List.singleton_append]
      · rw [if_neg h, ih, if_neg (by simp [h])]

theorem adapt_writes_eq (env : StepEnv) (s : SimState) :
    (adapt_traffic_lights env s).engine_writes
      = s.engine_writes
          ++ (adaptTargets env).map (fun t => EngineCmd.setPhaseDuration t 10) :=
  adapt_go_writes env env.tlsIDs s

/-!
The autonomous-vehicle set only ever grows.
-/

theorem classify_subset (r : ℚ) (v : String) (s : SimState) :
    s.autonomous_vehicles ⊆ (classify_vehicle r v s).autonomous_vehicles := by
  rw [classify_autonomous]
  split
  · exact Finset.subset_insert _ _
  · exact Finset.Subset.refl _

theorem convert_go_subset (rand : ℕ → ℚ) :
    ∀ (k : ℕ) (dep : List String) (s : SimState),
      s.autonomous_vehicles ⊆ (convert_go rand k dep s).autonomous_vehicles := by
  intro k dep
  induction dep generalizing k with
  | nil => intro s; exact Finset.Subset.refl _
  | cons v rest ih =>
      intro s
      simp only [convert_go]
      exact (classify_subset (rand k) v s).trans (ih (k + 1) _)

/-!
Per-iteration composites: what one `run_step` does to each field.
-/

theorem run_step_number_of_stops (renv : RunEnv) (i : ℕ) (s : SimState) :
    (run_step renv i s).number_of_stops = s.number_of_stops ++ [stopsVal (renv.stepEnv i)] := by
  by_cases h : i % 30 = 0 <;>
    simp [run_step, h, collect_metrics_eq, collect_additional_metrics_eq]

theorem run_step_fuel_consumption (renv : RunEnv) (i : ℕ) (s : SimState) :
    (run_step renv i s).fuel_consumption = s.fuel_consumption ++ [fuelVal (renv.stepEnv i)] := by
  by_cases h : i % 30 = 0 <;>
    simp [run_step, h, collect_metrics_eq, collect_additional_metrics_eq]

theorem run_step_mean_speed (renv : RunEnv) (i : ℕ) (s : SimState) :
    (run_step renv i s).mean_speed = s.mean_speed ++ [meanSpeedVal (renv.stepEnv i)] := by
  by_cases h : i % 30 = 0 <;>
    simp [run_step, h, collect_metrics_eq, collect_additional_metrics_eq]

theorem run_step_average_travel_time (renv : RunEnv) (i : ℕ) (s : SimState) :
    (run_step renv i s).average_travel_time
      = s.average_travel_time ++ [attVal (renv.stepEnv i)] := by
  by_cases h : i % 30 = 0 <;>
    simp [run_step, h, collect_metrics_eq, collect_additional_metrics_eq]

theorem run_step_traffic_flow_rate (renv : RunEnv) (i : ℕ) (s : SimState) :
    (run_step renv i s).traffic_flow_rate
      = s.traffic_flow_rate ++ [tfrVal (renv.stepEnv i)] := by
  by_cases h : i % 30 = 0 <;>
    simp [run_step, h, collect_metrics_eq, collect_additional_metrics_eq]

theorem run_step_congestion_levels (renv : RunEnv) (i : ℕ) (s : SimState) :
    (run_step renv i s).congestion_levels
      = s.congestion_levels ++ [congVal (renv.stepEnv i)] := by
  by_cases h : i % 30 = 0 <;>
    simp [run_step, h, collect_metrics_eq, collect_additional_metrics_eq]

theorem run_step_adaptation_count (renv : RunEnv) (i : ℕ) (s : SimState) :
    (run_step renv i s).adaptation_count
      = s.adaptation_count
          + (if i % 30 = 0 then (adaptTargets (renv.stepEnv i)).length else 0) := by
  by_cases h : i % 30 = 0 <;>
    simp [run_step, h, collect_metrics_eq, collect_additional_metrics_eq, adapt_count_eq]

theorem run_step_rate (renv : RunEnv) (i : ℕ) (s : SimState) :
    (run_step renv i s).av_penetration_rate = s.av_penetration_rate := by
  by_cases h : i % 30 = 0 <;>
    simp [run_step, h, collect_metrics_eq, collect_additional_metrics_eq]

theorem run_step_close_count (renv : RunEnv) (i : ℕ) (s : SimState) :
    (run_step renv i s).close_count = s.close_count := by
  by_cases h : i % 30 = 0 <;>
    simp [run_step, h, collect_metrics_eq, collect_additional_metrics_eq]

theorem run_step_subset (renv : RunEnv) (i : ℕ) (s : SimState) :
    s.autonomous_vehicles ⊆ (run_step renv i s).autonomous_vehicles := by
  by_cases h : i % 30 = 0 <;>
    simp [run_step, h, collect_metrics_eq, collect_additional_metrics_eq] <;>
    exact convert_go_subset (renv.rand i) 0 (renv.stepEnv i).departed s

theorem stateAfter_rate (renv : RunEnv) (rate : ℚ) :
    ∀ k, (stateAfter renv rate k).av_penetration_rate = rate := by
  intro k
  induction k with
  | zero => rfl
  | succ k ih => rw [stateAfter, run_step_rate]; exact ih

theorem stateAfter_close_count (renv : RunEnv) (rate : ℚ) :
    ∀ k, (stateAfter renv rate k).close_count = 0 := by
  intro k
  induction k with
  | zero => rfl
  | succ k ih => rw [stateAfter, run_step_close_count]; exact ih

/-!
Emergency-braking counters: each detected event increments the total and
exactly one sub-counter, so the sub-counters always sum to the total.
-/

theorem detect_vehicle_inv (env : StepEnv) (v : String) (s : SimState)
    (h : s.emergency_braking_av + s.emergency_braking_human = s.emergency_braking_total) :
    (detect_emergency_braking_vehicle env v s).emergency_braking_av
        + (detect_emergency_braking_vehicle env v s).emergency_braking_human
      = (detect_emergency_braking_vehicle env v s).emergency_braking_total := by
  simp only [detect_emergency_braking_vehicle]
  split
  · split <;> (dsimp only; omega)
  · exact h

theorem detect_inv (env : StepEnv) (s : SimState)
    (h : s.emergency_braking_av + s.emergency_braking_human = s.emergency_braking_total) :
    (detect_emergency_braking env s).emergency_braking_av
        + (detect_emergency_braking env s).emergency_braking_human
      = (detect_emergency_braking env s).emergency_braking_total :=
  foldl_inv
    (fun s =>
      s.emergency_braking_av + s.emergency_braking_human = s.emergency_braking_total)
    _ (fun s v hs => detect_vehicle_inv env v s hs) env.vehicleIDs s h

theorem run_step_inv (renv : RunEnv) (i : ℕ) (s : SimState)
    (h : s.emergency_braking_av + s.emergency_braking_human = s.emergency_braking_total) :
    (run_step renv i s).emergency_braking_av + (run_step renv i s).emergency_braking_human
      = (run_step renv i s).emergency_braking_total := by
  simp only [run_step]
  refine detect_inv _ _ ?_
  by_cases h30 : i % 30 = 0 <;>
    simp [h30, collect_metrics_eq, collect_additional_metrics_eq] <;> exact h

theorem stateAfter_inv (renv : RunEnv) (rate : ℚ) :
    ∀ k, (stateAfter renv rate k).emergency_braking_av
        + (stateAfter renv rate k).emergency_braking_human
      = (stateAfter renv rate k).emergency_braking_total := by
  intro k
  induction k with
  | zero => rfl
  | succ k ih => exact run_step_inv renv k _ ih

/-- When every present vehicle is in the autonomous set, detection never
touches the human sub-counter. -/
theorem detect_go_human (env : StepEnv) :
    ∀ (l : List String) (s : SimState), (∀ v ∈ l, v ∈ s.autonomous_vehicles) →
      (l.foldl (fun st veh_id => detect_emergency_braking_vehicle env veh_id st)
          s).emergency_braking_human
        = s.emergency_braking_human := by
  intro l
  induction l with
  | nil => intro s _; rfl
  | cons v rest ih =>
      intro s hall
      rw [List.foldl_cons]
      rw [ih _ (by
        intro w hw
        rw [detect_vehicle_autonomous]
        exact hall w (List.mem_cons_of_mem _ hw))]
      have hv := hall v (List.mem_cons_self _ _)
      simp only [detect_emergency_braking_vehicle]
      by_cases ha : env.getAcceleration v ≤ s.emergency_brake_threshold
      · rw [if_pos ha, if_pos hv]
      · rw [if_neg ha]

theorem detect_human_eq (env : StepEnv) (s : SimState)
    (hall : ∀ v ∈ env.vehicleIDs, v ∈ s.autonomous_vehicles) :
    (detect_emergency_braking env s).emergency_braking_human = s.emergency_braking_human :=
  detect_go_human env env.vehicleIDs s hall

/-- When the autonomous set is empty, detection never touches the
autonomous sub-counter. -/
theorem detect_go_av (env : StepEnv) :
    ∀ (l : List String) (s : SimState), s.autonomous_vehicles = ∅ →
      (l.foldl (fun st veh_id => detect_emergency_braking_vehicle env veh_id st)
          s).emergency_braking_av
        = s.emergency_braking_av := by
  intro l
  induction l with
  | nil => intro s _; rfl
  | cons v rest ih =>
      intro s hempty
      rw [List.foldl_cons]
      rw [ih _ (by rw [detect_vehicle_autonomous]; exact hempty)]
      simp only [detect_emergency_braking_vehicle]
      by_cases ha : env.getAcceleration v ≤ s.emergency_brake_threshold
      · rw [if_pos ha, if_neg (by simp [hempty])]
      · rw [if_neg ha]

theorem detect_av_eq (env : StepEnv) (s : SimState) (hempty : s.autonomous_vehicles = ∅) :
    (detect_emergency_braking env s).emergency_braking_av = s.emergency_braking_av :=
  detect_go_av env env.vehicleIDs s hempty

/-!
Departure classification at the penetration-rate extremes.
-/

/-- If every sample is below the penetration rate, every departed vehicle
ends up in the autonomous set. -/
theorem convert_go_mem (rand : ℕ → ℚ) :
    ∀ (k : ℕ) (dep : List String) (s : SimState),
      (∀ idx, rand idx < s.av_penetration_rate) →
      ∀ v ∈ dep, v ∈ (convert_go rand k dep s).autonomous_vehicles := by
  intro k dep
  induction dep generalizing k with
  | nil => intro s _ v hv; cases hv
  | cons a rest ih =>
      intro s hr v hv
      simp only [convert_go]
      rcases List.mem_cons.mp hv with h | h
      · subst h
        refine convert_go_subset rand (k + 1) rest _ ?_
        rw [classify_autonomous, if_pos (hr k)]
        exact Finset.mem_insert_self _ _
      · exact ih (k + 1) _ (fun idx => by rw [classify_rate]; exact hr idx) v h

/-- If every sample is at least 0 and the penetration rate is 0, the
departure loop does nothing at all. -/
theorem convert_go_zero (rand : ℕ → ℚ) :
    ∀ (k : ℕ) (dep : List String) (s : SimState),
      (∀ idx, 0 ≤ rand idx) → s.av_penetration_rate = 0 →
      convert_go rand k dep s = s := by
  intro k dep
  induction dep generalizing k with
  | nil => intro s _ _; rfl
  | cons a rest ih =>
      intro s h0 hrate
      have hclass : classify_vehicle (rand k) a s = s := by
        unfold classify_vehicle
        rw [if_neg (by rw [hrate]; exact not_lt.mpr (h0 k))]
      simp only [convert_go, hclass]
      exact ih (k + 1) _ h0 hrate

theorem stateAfter_mono (renv : RunEnv) (rate : ℚ) :
    ∀ j k, j ≤ k →
      (stateAfter renv rate j).autonomous_vehicles
        ⊆ (stateAfter renv rate k).autonomous_vehicles := by
  intro j k h
  induction k with
  | zero =>
      have hj : j = 0 := Nat.le_zero.mp h
      subst hj; exact Finset.Subset.refl _
  | succ k ih =>
      rcases Nat.eq_or_lt_of_le h with heq | hlt
      · subst heq; exact Finset.Subset.refl _
      · exact (ih (Nat.lt_succ_iff.mp hlt)).trans (run_step_subset renv k _)

theorem run_step_mem_departed (renv : RunEnv) (i : ℕ) (s : SimState)
    (hrate : ∀ idx, renv.rand i idx < s.av_penetration_rate) :
    ∀ v ∈ (renv.stepEnv i).departed, v ∈ (run_step renv i s).autonomous_vehicles := by
  intro v hv
  by_cases h30 : i % 30 = 0 <;>
    simp [run_step, h30, collect_metrics_eq, collect_additional_metrics_eq] <;>
    exact convert_go_mem (renv.rand i) 0 _ s hrate v hv

theorem run_step_human (renv : RunEnv) (i : ℕ) (s : SimState)
    (hall : ∀ v ∈ (renv.stepEnv i).vehicleIDs,
      v ∈ (convert_departed (renv.rand i) (renv.stepEnv i).departed s).autonomous_vehicles) :
    (run_step renv i s).emergency_braking_human = s.emergency_braking_human := by
  by_cases h30 : i % 30 = 0
  · simp only [run_step, if_pos h30]
    rw [detect_human_eq _ _ (by
      intro v hv
      simp only [collect_metrics_eq, collect_additional_metrics_eq, adapt_autonomous]
      exact hall v hv)]
    simp [collect_metrics_eq, collect_additional_metrics_eq]
  · simp only [run_step, if_neg h30]
    rw [detect_human_eq _ _ (by
      intro v hv
      simp only [collect_metrics_eq, collect_additional_metrics_eq]
      exact hall v hv)]
    simp [collect_metrics_eq, collect_additional_metrics_eq]

theorem run_step_rate_zero (renv : RunEnv) (i : ℕ) (s : SimState)
    (h0 : ∀ idx, 0 ≤ renv.rand i idx) (hrate : s.av_penetration_rate = 0)
    (hempty : s.autonomous_vehicles = ∅) :
    (run_step renv i s).autonomous_vehicles = ∅ ∧
      (run_step renv i s).emergency_braking_av = s.emergency_braking_av := by
  have hconv : convert_departed (renv.rand i) (renv.stepEnv i).departed s = s :=
    convert_go_zero (renv.rand i) 0 _ s h0 hrate
  by_cases h30 : i % 30 = 0
  · simp only [run_step, if_pos h30, hconv]
    constructor
    · simp [collect_metrics_eq, collect_additional_metrics_eq, hempty]
    · rw [detect_av_eq _ _ (by
        simp only [collect_metrics_eq, collect_additional_metrics_eq, adapt_autonomous]
        exact hempty)]
      simp [collect_metrics_eq, collect_additional_metrics_eq]
  · simp only [run_step, if_neg h30, hconv]
    constructor
    · simp [collect_metrics_eq, collect_additional_metrics_eq, hempty]
    · rw [detect_av_eq _ _ (by
        simp only [collect_metrics_eq, collect_additional_metrics_eq]
        exact hempty)]
      simp [collect_metrics_eq, collect_additional_metrics_eq]

/-!
Maximum and minimum of a nonempty series, as computed by the fold form of
the summary.
-/

theorem foldl_max_mem (v : ℚ) (vs : List ℚ) : vs.foldl max v ∈ v :: vs := by
  induction vs generalizing v with
  | nil => exact List.mem_singleton_self v
  | cons a t ih =>
      rw [List.foldl_cons]
      rcases List.mem_cons.mp (ih (max v a)) with h | h
      · rw [h]
        rcases max_choice v a with hm | hm <;> rw [hm] <;> simp
      · exact List.mem_cons_of_mem _ (List.mem_cons_of_mem _ h)

theorem le_foldl_max (v : ℚ) (vs : List ℚ) : ∀ x ∈ v :: vs, x ≤ vs.foldl max v := by
  induction vs generalizing v with
  | nil =>
      intro x hx
      rcases List.mem_singleton.mp hx with h
      exact le_of_eq h
  | cons a t ih =>
      intro x hx
      rw [List.foldl_cons]
      rcases List.mem_cons.mp hx with h | h
      · subst h
        exact le_trans (le_max_left x a) (ih (max x a) _ (List.mem_cons_self _ _))
      · rcases List.mem_cons.mp h with h2 | h2
        · subst h2
          exact le_trans (le_max_right v x) (ih (max v x) _ (List.mem_cons_self _ _))
        · exact ih (max v a) x (List.mem_cons_of_mem _ h2)

theorem foldl_min_mem (v : ℚ) (vs : List ℚ) : vs.foldl min v ∈ v :: vs := by
  induction vs generalizing v with
  | nil => exact List.mem_singleton_self v
  | cons a t ih =>
      rw [List.foldl_cons]
      rcases List.mem_cons.mp (ih (min v a)) with h | h
      · rw [h]
        rcases min_choice v a with hm | hm <;> rw [hm] <;> simp
      · exact List.mem_cons_of_mem _ (List.mem_cons_of_mem _ h)

theorem foldl_min_le (v : ℚ) (vs : List ℚ) : ∀ x ∈ v :: vs, vs.foldl min v ≤ x := by
  induction vs generalizing v with
  | nil =>
      intro x hx
      rcases List.mem_singleton.mp hx with h
      exact le_of_eq h.symm
  | cons a t ih =>
      intro x hx
      rw [List.foldl_cons]
      rcases List.mem_cons.mp hx with h | h
      · subst h
        exact le_trans (ih (min x a) _ (List.mem_cons_self _ _)) (min_le_left x a)
      · rcases List.mem_cons.mp h with h2 | h2
        · subst h2
          exact le_trans (ih (min v x) _ (List.mem_cons_self _ _)) (min_le_right v x)
        · exact ih (min v a) x (List.mem_cons_of_mem _ h2)

/-!
The claims.
-/

/-- Claim C1: for every run and every number `k` of executed steps, each of
the six per-step metric time series (stops, fuel, mean speed, travel-time
proxy, flow rate, congestion) has length exactly `k` — exactly one appended
entry per step, with no gaps even on steps with no vehicles present. -/
theorem C1_metric_series_lengths (renv : RunEnv) (rate : ℚ) (k : ℕ) :
    (stateAfter renv rate k).number_of_stops.length = k ∧
    (stateAfter renv rate k).fuel_consumption.length = k ∧
    (stateAfter renv rate k).mean_speed.length = k ∧
    (stateAfter renv rate k).average_travel_time.length = k ∧
    (stateAfter renv rate k).traffic_flow_rate.length = k ∧
    (stateAfter renv rate k).congestion_levels.length = k := by
  induction k with
  | zero => exact ⟨rfl, rfl, rfl, rfl, rfl, rfl⟩
  | succ k ih =>
      obtain ⟨h1, h2, h3, h4, h5, h6⟩ := ih
      refine ⟨?_, ?_, ?_, ?_, ?_, ?_⟩ <;>
        simp [stateAfter, run_step_number_of_stops, run_step_fuel_consumption,
          run_step_mean_speed, run_step_average_travel_time, run_step_traffic_flow_rate,
          run_step_congestion_levels, h1, h2, h3, h4, h5, h6]

/-- Claim C2: at every point of every run the emergency-braking
sub-counters satisfy autonomous + human = total, and each detected event
(acceleration at or below the threshold) increments the total and exactly
one of the two sub-counters, chosen by membership of the vehicle id in the
autonomous set. -/
theorem C2_braking_subcounters (renv : RunEnv) (rate : ℚ) (k : ℕ) :
    ((stateAfter renv rate k).emergency_braking_av
        + (stateAfter renv rate k).emergency_braking_human
      = (stateAfter renv rate k).emergency_braking_total) ∧
    (∀ (env : StepEnv) (veh_id : String) (s : SimState),
      env.getAcceleration veh_id ≤ s.emergency_brake_threshold →
      detect_emergency_braking_vehicle env veh_id s =
        if veh_id ∈ s.autonomous_vehicles then
          { s with
            emergency_braking_av := s.emergency_braking_av + 1
            emergency_braking_total := s.emergency_braking_total + 1 }
        else
          { s with
            emergency_braking_human := s.emergency_braking_human + 1
            emergency_braking_total := s.emergency_braking_total + 1 }) := by
  refine ⟨stateAfter_inv renv rate k, ?_⟩
  intro env veh_id s h
  simp only [detect_emergency_braking_vehicle, if_pos h]

/-- Witness for C2 at a concrete braking event from the initial state. -/
theorem C2_witness :
    detect_emergency_braking_vehicle envBrake "v0" (initState 1) =
      if "v0" ∈ (initState 1).autonomous_vehicles then
        { initState 1 with
          emergency_braking_av := (initState 1).emergency_braking_av + 1
          emergency_braking_total := (initState 1).emergency_braking_total + 1 }
      else
        { initState 1 with
          emergency_braking_human := (initState 1).emergency_braking_human + 1
          emergency_braking_total := (initState 1).emergency_braking_total + 1 } :=
  (C2_braking_subcounters renvEmpty 1 0).2 envBrake "v0" (initState 1) (le_refl _)

/-- Claim C4: on a step whose vehicle set is empty, all six per-step
metrics append the neutral value 0 — an entry is appended, never skipped. -/
theorem C4_empty_step_neutral (renv : RunEnv) (i : ℕ) (s : SimState)
    (h : (renv.stepEnv i).vehicleIDs = []) :
    (run_step renv i s).number_of_stops = s.number_of_stops ++ [0] ∧
    (run_step renv i s).fuel_consumption = s.fuel_consumption ++ [0] ∧
    (run_step renv i s).mean_speed = s.mean_speed ++ [0] ∧
    (run_step renv i s).average_travel_time = s.average_travel_time ++ [0] ∧
    (run_step renv i s).traffic_flow_rate = s.traffic_flow_rate ++ [0] ∧
    (run_step renv i s).congestion_levels = s.congestion_levels ++ [0] := by
  refine ⟨?_, ?_, ?_, ?_, ?_, ?_⟩ <;>
    simp [run_step_number_of_stops, run_step_fuel_consumption, run_step_mean_speed,
      run_step_average_travel_time, run_step_traffic_flow_rate, run_step_congestion_levels,
      stopsVal, fuelVal, meanSpeedVal, attVal, tfrVal, congVal, h]

/-- Witness for C4 on the engine with no vehicles. -/
theorem C4_witness :
    (run_step renvEmpty 0 (initState (1/2))).number_of_stops
        = (initState (1/2)).number_of_stops ++ [0] ∧
    (run_step renvEmpty 0 (initState (1/2))).fuel_consumption
        = (initState (1/2)).fuel_consumption ++ [0] ∧
    (run_step renvEmpty 0 (initState (1/2))).mean_speed
        = (initState (1/2)).mean_speed ++ [0] ∧
    (run_step renvEmpty 0 (initState (1/2))).average_travel_time
        = (initState (1/2)).average_travel_time ++ [0] ∧
    (run_step renvEmpty 0 (initState (1/2))).traffic_flow_rate
        = (initState (1/2)).traffic_flow_rate ++ [0] ∧
    (run_step renvEmpty 0 (initState (1/2))).congestion_levels
        = (initState (1/2)).congestion_levels ++ [0] :=
  C4_empty_step_neutral renvEmpty 0 (initState (1/2)) rfl

/-- Claim C6: every step records flow rate = number of present vehicles
divided by `max 1 simulation-time`, and with one vehicle present at
simulated time 0 the recorded flow rate is exactly 1 (the divisor is
floored at 1, so no division by zero can occur). -/
theorem C6_flow_rate_guarded (renv : RunEnv) (i : ℕ) (s : SimState) :
    ((run_step renv i s).traffic_flow_rate
      = s.traffic_flow_rate
          ++ [((renv.stepEnv i).vehicleIDs.length : ℚ) / max 1 (renv.stepEnv i).simTime]) ∧
    (∀ (env : StepEnv) (veh_id : String), env.vehicleIDs = [veh_id] → env.simTime = 0 →
      (collect_additional_metrics env s).traffic_flow_rate = s.traffic_flow_rate ++ [1]) := by
  constructor
  · simpa [tfrVal] using run_step_traffic_flow_rate renv i s
  · intro env veh_id hv ht
    rw [collect_additional_metrics_eq]
    simp [tfrVal, hv, ht]

/-- Witness for C6 with one vehicle at simulation time 0. -/
theorem C6_witness :
    (collect_additional_metrics envOneVehicle (initState (1/2))).traffic_flow_rate
      = (initState (1/2)).traffic_flow_rate ++ [1] :=
  (C6_flow_rate_guarded renvEmpty 0 (initState (1/2))).2 envOneVehicle "v0" rfl rfl

/-- Claim C7: membership in the autonomous set is monotonic over any run —
once an identifier is in the set after `j` steps it is still there after
any `k ≥ j` steps (identifiers are never removed, not even on departure). -/
theorem C7_autonomous_monotone (renv : RunEnv) (rate : ℚ) (j k : ℕ) (h : j ≤ k) :
    (stateAfter renv rate j).autonomous_vehicles
      ⊆ (stateAfter renv rate k).autonomous_vehicles :=
  stateAfter_mono renv rate j k h

/-- Witness for C7 on a concrete pair of step counts. -/
theorem C7_witness :
    (stateAfter renvEmpty (1/2) 0).autonomous_vehicles
      ⊆ (stateAfter renvEmpty (1/2) 3).autonomous_vehicles :=
  C7_autonomous_monotone renvEmpty (1/2) 0 3 (by norm_num)

/-- Claim C3: within one loop iteration the adaptation counter grows by
exactly the number of intersections whose total waiting time strictly
exceeds 120, and only on steps divisible by 30; each firing writes a
phase-duration-10 command for that intersection; an intersection sits in
the fired set exactly when it is listed and its waiting time strictly
exceeds 120, so nothing fires at waiting time exactly 120. -/
theorem C3_signal_adaptation :
    (∀ (renv : RunEnv) (i : ℕ) (s : SimState),
      (run_step renv i s).adaptation_count =
        s.adaptation_count
          + (if i % 30 = 0 then (adaptTargets (renv.stepEnv i)).length else 0)) ∧
    (∀ (env : StepEnv) (s : SimState),
      (adapt_traffic_lights env s).engine_writes =
        s.engine_writes ++ (adaptTargets env).map (fun t => EngineCmd.setPhaseDuration t 10)) ∧
    (∀ (env : StepEnv) (t : String),
      t ∈ adaptTargets env ↔ t ∈ env.tlsIDs ∧ 120 < get_total_waiting_time env t) ∧
    (∀ (env : StepEnv) (t : String),
      get_total_waiting_time env t = 120 → t ∉ adaptTargets env) := by
  refine ⟨run_step_adaptation_count, adapt_writes_eq, ?_, ?_⟩
  · intro env t
    simp [adaptTargets, List.mem_filter]
  · intro env t h
    simp [adaptTargets, List.mem_filter, h]

/-- Witness for C3: one intersection at total waiting time exactly 120
does not fire. -/
theorem C3_witness : "tls0" ∉ adaptTargets (envTls 120) :=
  C3_signal_adaptation.2.2.2 (envTls 120) "tls0"
    (by norm_num [get_total_waiting_time, envTls, emptyEnv])

/-- Claim C5: the braking threshold comparison is inclusive — with the
threshold at -7.5, a single present vehicle with acceleration exactly -7.5
increments the emergency-braking total, while acceleration -7.4 leaves the
whole state untouched. -/
theorem C5_threshold_inclusive (env : StepEnv) (s : SimState) (veh_id : String)
    (hthr : s.emergency_brake_threshold = -(15/2))
    (hveh : env.vehicleIDs = [veh_id]) :
    (env.getAcceleration veh_id = -(15/2) →
      (detect_emergency_braking env s).emergency_braking_total
        = s.emergency_braking_total + 1) ∧
    (env.getAcceleration veh_id = -(37/5) → detect_emergency_braking env s = s) := by
  constructor
  · intro ha
    unfold detect_emergency_braking
    rw [hveh, List.foldl_cons, List.foldl_nil]
    simp only [detect_emergency_braking_vehicle, ha, hthr]
    rw [if_pos (le_refl _)]
    by_cases hm : veh_id ∈ s.autonomous_vehicles
    · rw [if_pos hm]
    · rw [if_neg hm]
  · intro ha
    unfold detect_emergency_braking
    rw [hveh, List.foldl_cons, List.foldl_nil]
    simp only [detect_emergency_braking_vehicle, ha, hthr]
    rw [if_neg (by norm_num)]

/-- Witness for C5 at accelerations -7.5 and -7.4. -/
theorem C5_witness :
    ((detect_emergency_braking envBrake (initState 1)).emergency_braking_total
        = (initState 1).emergency_braking_total + 1) ∧
    detect_emergency_braking envNoBrake (initState 1) = initState 1 :=
  ⟨(C5_threshold_inclusive envBrake (initState 1) "v0" rfl rfl).1 rfl,
   (C5_threshold_inclusive envNoBrake (initState 1) "v0" rfl rfl).2 rfl⟩

/-- Claim C8: with every random sample in [0,1) — and the engine reporting
every present vehicle as departed at some earlier-or-equal step — a run at
penetration rate 1 adds every newly departed identifier to the autonomous
set and its human emergency-braking sub-count stays 0 forever; dually, at
penetration rate 0 the autonomous set stays empty and the autonomous
sub-count stays 0. -/
theorem C8_penetration_extremes (renv : RunEnv)
    (hrand : ∀ i idx, 0 ≤ renv.rand i idx ∧ renv.rand i idx < 1)
    (hcover : ∀ i veh_id, veh_id ∈ (renv.stepEnv i).vehicleIDs →
      ∃ j, j ≤ i ∧ veh_id ∈ (renv.stepEnv j).departed) :
    (∀ i veh_id, veh_id ∈ (renv.stepEnv i).departed →
      veh_id ∈ (stateAfter renv 1 (i + 1)).autonomous_vehicles) ∧
    (∀ k, (stateAfter renv 1 k).emergency_braking_human = 0) ∧
    (∀ k, (stateAfter renv 0 k).autonomous_vehicles = ∅) ∧
    (∀ k, (stateAfter renv 0 k).emergency_braking_av = 0) := by
  have hmem : ∀ i veh_id, veh_id ∈ (renv.stepEnv i).departed →
      veh_id ∈ (stateAfter renv 1 (i + 1)).autonomous_vehicles := by
    intro i v hv
    exact run_step_mem_departed renv i _
      (fun idx => by rw [stateAfter_rate]; exact (hrand i idx).2) v hv
  have hempty : ∀ k, (stateAfter renv 0 k).autonomous_vehicles = ∅ := by
    intro k
    induction k with
    | zero => rfl
    | succ k ih =>
        exact (run_step_rate_zero renv k _ (fun idx => (hrand k idx).1)
          (stateAfter_rate renv 0 k) ih).1
  refine ⟨hmem, ?_, hempty, ?_⟩
  · intro k
    induction k with
    | zero => rfl
    | succ k ih =>
        have hall : ∀ v ∈ (renv.stepEnv k).vehicleIDs,
            v ∈ (convert_departed (renv.rand k) (renv.stepEnv k).departed
                  (stateAfter renv 1 k)).autonomous_vehicles := by
          intro v hv
          rcases hcover k v hv with ⟨j, hj, hdep⟩
          rcases Nat.eq_or_lt_of_le hj with heq | hlt
          · rw [heq] at hdep
            exact convert_go_mem (renv.rand k) 0 _ _
              (fun idx => by rw [stateAfter_rate]; exact (hrand k idx).2) v hdep
          · exact convert_go_subset (renv.rand k) 0 _ _
              (stateAfter_mono renv 1 (j + 1) k hlt (hmem j v hdep))
        rw [stateAfter, run_step_human renv k _ hall]
        exact ih
  · intro k
    induction k with
    | zero => rfl
    | succ k ih =>
        rw [stateAfter, (run_step_rate_zero renv k _ (fun idx => (hrand k idx).1)
          (stateAfter_rate renv 0 k) (hempty k)).2]
        exact ih

/-- Witness for C8 on an engine with one vehicle that departs and stays. -/
theorem C8_witness :
    "v0" ∈ (stateAfter (constRun envDeparting) 1 1).autonomous_vehicles ∧
    (stateAfter (constRun envDeparting) 1 5).emergency_braking_human = 0 ∧
    (stateAfter (constRun envDeparting) 0 5).autonomous_vehicles = ∅ ∧
    (stateAfter (constRun envDeparting) 0 5).emergency_braking_av = 0 := by
  have h := C8_penetration_extremes (constRun envDeparting)
    (fun i idx => ⟨by norm_num [constRun], by norm_num [constRun]⟩)
    (fun i veh_id hv => ⟨i, le_refl i, hv⟩)
  exact ⟨h.1 0 "v0" (by decide), h.2.1 5, h.2.2.1 5, h.2.2.2 5⟩

/-- Claim C9 (amended): a run that completes all its steps calls `close`
exactly once; a run aborted by an engine-call failure mid-loop terminates
without calling `close` at all — the loop has no guaranteed-release
block. -/
theorem C9_close_on_completion (renv : RunEnv) (rate : ℚ) (steps : ℕ) :
    (∃ s, run renv rate steps none = Except.ok s ∧ s.close_count = 1) ∧
    (∀ i, i < steps →
      ∃ s, run renv rate steps (some i) = Except.error s ∧ s.close_count = 0) := by
  constructor
  · refine ⟨finalizeRun (stateAfter renv rate steps), rfl, ?_⟩
    simp [finalizeRun, stateAfter_close_count]
  · intro i hi
    refine ⟨stateAfter renv rate i, ?_, stateAfter_close_count renv rate i⟩
    simp [run, hi]

/-- Witness for C9 (amended) at a concrete aborted run. -/
theorem C9_witness :
    ∃ s, run renvEmpty (1/2) 2 (some 1) = Except.error s ∧ s.close_count = 0 :=
  (C9_close_on_completion renvEmpty (1/2) 2).2 1 (by norm_num)

/-- Counterexample to claim C9 as stated: a run of 2 steps aborted by an
engine failure at iteration 1 ends with `close` having been called zero
times, not exactly once. -/
theorem C9_counterexample :
    run renvEmpty (1/2) 2 (some 1) = Except.error (stateAfter renvEmpty (1/2) 1) ∧
    (stateAfter renvEmpty (1/2) 1).close_count ≠ 1 := by
  constructor
  · rfl
  · rw [stateAfter_close_count]
    norm_num

/-- Claim C10: a summary row is defined exactly for nonempty series; on a
nonempty series it is the tuple (average, maximum over the full series,
minimum over the full series, last element). -/
theorem C10_summary_requires_nonempty :
    summarize_row [] = none ∧
    ∀ (values : List ℚ) (h : values ≠ []), ∃ m mx mn fin,
      summarize_row values = some (m, mx, mn, fin) ∧
      m = npMean values ∧
      fin = values.getLast h ∧
      mx ∈ values ∧ (∀ x ∈ values, x ≤ mx) ∧
      mn ∈ values ∧ (∀ x ∈ values, mn ≤ x) := by
  constructor
  · rfl
  · intro values h
    cases values with
    | nil => exact absurd rfl h
    | cons v vs =>
        refine ⟨npMean (v :: vs), vs.foldl max v, vs.foldl min v,
          (v :: vs).getLast (by simp), ?_, rfl, rfl, ?_, ?_, ?_, ?_⟩
        · simp only [summarize_row, npMax, npMin]
          rw [List.getLast?_eq_getLast]
        · exact foldl_max_mem v vs
        · exact le_foldl_max v vs
        · exact foldl_min_mem v vs
        · exact foldl_min_le v vs

/-- Witness for C10 on the series [10, 20, 30]: average 20, maximum 30,
minimum 10, final 30. -/
theorem C10_witness :
    ∃ m mx mn fin, summarize_row [10, 20, 30] = some (m, mx, mn, fin) ∧
      m = 20 ∧ mx = 30 ∧ mn = 10 ∧ fin = 30 := by
  obtain ⟨m, mx, mn, fin, heq, hm, hfin, hmxmem, hmxub, hmnmem, hmnlb⟩ :=
    C10_summary_requires_nonempty.2 [10, 20, 30] (by simp)
  refine ⟨m, mx, mn, fin, heq, ?_, ?_, ?_, ?_⟩
  · rw [hm]; norm_num [npMean]
  · have h30 : (30 : ℚ) ≤ mx := hmxub 30 (by norm_num)
    simp only [List.mem_cons, List.not_mem_nil, or_false] at hmxmem
    rcases hmxmem with h | h | h <;> subst h <;> linarith
  · have h10 : mn ≤ (10 : ℚ) := hmnlb 10 (by norm_num)
    simp only [List.mem_cons, List.not_mem_nil, or_false] at hmnmem
    rcases hmnmem with h | h | h <;> subst h <;> linarith
  · rw [hfin]
    rfl

end MixedTraffic
